import Mathlib

/-!
Verification development for the exai-ui-mcp workflow orchestration layer.

The definitions below are a shallow embedding of the TypeScript source:
* `POST` embeds the generic tool route `src/app/app/api/exai/[tool]/route.ts`;
* `dbCreateConversation`, `dbUpdateWorkflow`, `dbCreateWorkflowStep`,
  `dbGetWorkflowSteps`, `dbUpdateConversation` embed the
  `LocalDatabaseAdapter` (Prisma) operations the route uses, acting on an
  explicit `DbState`;
* `localMakeRequest` / `supabaseMakeRequest` embed the `makeRequest`
  helpers of `LocalExaiAdapter` and `SupabaseExaiAdapter`;
* `getMode`, `getExaiAdapter`, `getDatabaseAdapter` embed `AdapterFactory`;
* `localUpdateConversation` / `supabaseUpdateConversation` embed the two
  database adapters' `updateConversation` methods.

Dates are modeled as natural numbers (`now` parameters); JavaScript
exceptions are modeled as `JsError` values carried in `Except`; the
`z.any()`-typed entries of step metadata are modeled as strings.
-/


/-! ## Definitions: the shallow embedding and the fixtures -/

/-- `ExaiResponse` from `IExaiAdapter.ts` (fields relevant to the gateway;
the open-ended extension fields are not observed by the route). -/
structure ExaiResponse where
  status : String
  content : Option String := none
  continuation_id : Option String := none
  step_number : Option Nat := none
  next_step_required : Option Bool := none
  expert_analysis : Option String := none
deriving DecidableEq

/-- A thrown JavaScript `Error`: runtime class name plus message. -/
structure JsError where
  name : String
  message : String
deriving DecidableEq

/-- `Conversation` record (`IDatabaseAdapter.ts`). -/
structure Conversation where
  id : String
  title : Option String
  toolType : String
  userId : String
  createdAt : Nat
  updatedAt : Nat
deriving DecidableEq

/-- The metadata object the route stores on a workflow step
(`route.ts` lines 123–129 and 146–149). -/
structure StepMetadata where
  step : String
  relevant_files : Option (List String) := none
  files_checked : Option (List String) := none
  relevant_context : Option (List String) := none
  issues_found : Option (List String) := none
  response : Option ExaiResponse := none
deriving DecidableEq

/-- `Workflow` record (`IDatabaseAdapter.ts`). -/
structure Workflow where
  id : String
  conversationId : String
  toolType : String
  status : String
  currentStep : Nat
  totalSteps : Nat
  continuationId : Option String
  result : Option ExaiResponse
  createdAt : Nat
  updatedAt : Nat
deriving DecidableEq

/-- `WorkflowStep` record (`IDatabaseAdapter.ts`). -/
structure WorkflowStep where
  workflowId : String
  stepNumber : Nat
  findings : String
  hypothesis : Option String
  confidence : Option String
  status : String
  metadata : StepMetadata
  createdAt : Nat
deriving DecidableEq

/-- The persistent store of the local (Prisma) database adapter; lists keep
insertion order. -/
structure DbState where
  conversations : List Conversation
  workflows : List Workflow
  steps : List WorkflowStep
deriving DecidableEq

/-- `UpdateWorkflowInput` (`IDatabaseAdapter.ts`): every field optional;
a present `continuationId`/`result` may itself carry `null`. -/
structure UpdateWorkflowInput where
  toolType : Option String := none
  status : Option String := none
  currentStep : Option Nat := none
  totalSteps : Option Nat := none
  continuationId : Option (Option String) := none
  result : Option (Option ExaiResponse) := none
deriving DecidableEq

/-- `UpdateConversationInput`: the declared TS type has only `title` and
`toolType`; the route additionally passes `updatedAt` at runtime
(`route.ts` line 163), which Prisma applies, so it is kept here. -/
structure UpdateConversationInput where
  title : Option (Option String) := none
  toolType : Option String := none
  updatedAt : Option Nat := none
deriving DecidableEq

/-- `CreateWorkflowStepInput` (`IDatabaseAdapter.ts`). -/
structure CreateWorkflowStepInput where
  workflowId : String
  stepNumber : Nat
  findings : String
  hypothesis : Option String
  confidence : Option String
  status : String
  metadata : StepMetadata
deriving DecidableEq

/-- Prisma partial update of a workflow: supplied fields overwrite. -/
def applyWorkflowUpdate (w : Workflow) (u : UpdateWorkflowInput) (now : Nat) : Workflow :=
  { w with
    toolType := u.toolType.getD w.toolType
    status := u.status.getD w.status
    currentStep := u.currentStep.getD w.currentStep
    totalSteps := u.totalSteps.getD w.totalSteps
    continuationId := u.continuationId.getD w.continuationId
    result := u.result.getD w.result
    updatedAt := now }

/-- Prisma partial update of a conversation: supplied fields overwrite. -/
def applyConversationUpdate (c : Conversation) (u : UpdateConversationInput) : Conversation :=
  { c with
    title := u.title.getD c.title
    toolType := u.toolType.getD c.toolType
    updatedAt := u.updatedAt.getD c.updatedAt }

/-- `prisma.workflow.findUnique` by id: first record with that id. -/
def getWorkflow (db : DbState) (id : String) : Option Workflow :=
  db.workflows.find? (fun w => w.id = id)

/-- `prisma.conversation.findUnique` by id. -/
def getConversation (db : DbState) (id : String) : Option Conversation :=
  db.conversations.find? (fun c => c.id = id)

/-- Replace the workflow with the given id by its updated version. -/
def updateWorkflowById (l : List Workflow) (id : String) (u : UpdateWorkflowInput)
    (now : Nat) : List Workflow :=
  l.map (fun w => if w.id = id then applyWorkflowUpdate w u now else w)

/-- `LocalDatabaseAdapter.updateWorkflow`: `prisma.workflow.update` throws
when the record is absent. -/
def dbUpdateWorkflow (db : DbState) (id : String) (u : UpdateWorkflowInput)
    (now : Nat) : Except JsError DbState :=
  match db.workflows.find? (fun w => w.id = id) with
  | some _ => .ok { db with workflows := updateWorkflowById db.workflows id u now }
  | none => .error { name := "Error", message := "Record to update not found." }

/-- `LocalDatabaseAdapter.updateConversation`: Prisma update, throws when
the record is absent. -/
def dbUpdateConversation (db : DbState) (id : String) (u : UpdateConversationInput) :
    Except JsError DbState :=
  match db.conversations.find? (fun c => c.id = id) with
  | some _ =>
      .ok { db with conversations :=
              db.conversations.map (fun c => if c.id = id then applyConversationUpdate c u else c) }
  | none => .error { name := "Error", message := "Record to update not found." }

/-- `LocalDatabaseAdapter.createConversation`: insert with server-assigned
id and timestamps. -/
def dbCreateConversation (db : DbState) (userId toolType : String) (title : Option String)
    (id : String) (now : Nat) : DbState :=
  { db with conversations := db.conversations ++
      [{ id := id, title := title, toolType := toolType, userId := userId,
         createdAt := now, updatedAt := now }] }

/-- The stored step record built from a create input plus the
server-assigned timestamp. -/
def mkWorkflowStep (inp : CreateWorkflowStepInput) (now : Nat) : WorkflowStep :=
  { workflowId := inp.workflowId, stepNumber := inp.stepNumber,
    findings := inp.findings, hypothesis := inp.hypothesis,
    confidence := inp.confidence, status := inp.status,
    metadata := inp.metadata, createdAt := now }

/-- `LocalDatabaseAdapter.createWorkflowStep`: `prisma.workflowStep.create`,
an insert — it never touches existing step records. -/
def dbCreateWorkflowStep (db : DbState) (inp : CreateWorkflowStepInput) (now : Nat) : DbState :=
  { db with steps := db.steps ++ [mkWorkflowStep inp now] }

/-- Stable insertion into a list sorted by `stepNumber`: the new element
goes before the first element with a larger-or-equal step number, so
records inserted earlier stay first among equal step numbers. -/
def insertByStepNumber (s : WorkflowStep) : List WorkflowStep → List WorkflowStep
  | [] => [s]
  | a :: t => if s.stepNumber ≤ a.stepNumber then s :: a :: t else a :: insertByStepNumber s t

/-- Stable sort by `stepNumber` ascending. -/
def sortByStepNumber (l : List WorkflowStep) : List WorkflowStep :=
  l.foldr insertByStepNumber []

/-- `LocalDatabaseAdapter.getWorkflowSteps`: filter by workflow id, ordered
by `stepNumber` ascending (stable sort, matching the SQL order). -/
def dbGetWorkflowSteps (db : DbState) (workflowId : String) : List WorkflowStep :=
  sortByStepNumber (db.steps.filter (fun s => s.workflowId = workflowId))

/-- `VALID_TOOLS` from `route.ts`. -/
def VALID_TOOLS : List String :=
  ["debug", "analyze", "codereview", "secaudit", "docgen", "testgen",
   "planner", "consensus", "precommit", "refactor", "tracer", "thinkdeep"]

/-- The zod `confidence` enumeration from `route.ts`. -/
def CONFIDENCE_VALUES : List String :=
  ["exploring", "low", "medium", "high", "very_high", "almost_certain", "certain"]

/-- The request body after zod parsing (`toolSchema` in `route.ts`);
pass-through extension fields are not observed by the route's own logic. -/
structure ToolRequest where
  step : String
  step_number : Nat
  total_steps : Nat
  next_step_required : Bool
  findings : String
  conversationId : Option String := none
  workflowId : Option String := none
  continuation_id : Option String := none
  hypothesis : Option String := none
  confidence : Option String := none
  relevant_files : Option (List String) := none
  files_checked : Option (List String) := none
  relevant_context : Option (List String) := none
  issues_found : Option (List String) := none
deriving DecidableEq

/-- The zod constraints of `toolSchema` on the fields the route reads. -/
def zodValid (r : ToolRequest) : Bool :=
  1 ≤ r.step.length && 1 ≤ r.step_number && 1 ≤ r.total_steps &&
    (match r.confidence with
     | none => true
     | some c => CONFIDENCE_VALUES.contains c)

/-- JavaScript `x || null` on an optional string: absent and empty both
collapse to null. -/
def jsOrNull (o : Option String) : Option String :=
  match o with
  | some s => if s = "" then none else some s
  | none => none

/-- The `db.updateWorkflow` argument built at `route.ts` lines 107–112. -/
def firstWorkflowUpdate (r : ToolRequest) : UpdateWorkflowInput :=
  { currentStep := some r.step_number
    totalSteps := some r.total_steps
    status := some (if r.next_step_required then "running" else "completed")
    continuationId := some (jsOrNull r.continuation_id) }

/-- The metadata stored with the pre-call step record
(`route.ts` lines 123–129). -/
def preCallStepMetadata (r : ToolRequest) : StepMetadata :=
  { step := r.step
    relevant_files := r.relevant_files
    files_checked := r.files_checked
    relevant_context := r.relevant_context
    issues_found := r.issues_found }

/-- The `db.createWorkflowStep` argument at `route.ts` lines 116–130. -/
def runningStepInput (workflowId : String) (r : ToolRequest) : CreateWorkflowStepInput :=
  { workflowId := workflowId
    stepNumber := r.step_number
    findings := r.findings
    hypothesis := jsOrNull r.hypothesis
    confidence := jsOrNull r.confidence
    status := "running"
    metadata := preCallStepMetadata r }

/-- What the route handler returns: the JSON success payload or an HTTP
error status with its message. -/
inductive RouteResult where
  | ok (conversationId : String) (workflowId : String) (response : ExaiResponse)
  | err (statusCode : Nat) (message : String)
deriving DecidableEq

/-- Per-request context: the URL tool segment, the authenticated session,
the parsed body, the outcome `exai.executeTool` will produce, the ids the
store will assign to newly created records, and the request time. -/
structure RouteCtx where
  tool : String
  session : Option String
  req : ToolRequest
  adapterResult : Except JsError ExaiResponse
  newConversationId : String
  newWorkflowId : String
  now : Nat

/-- The `db.createWorkflowStep` argument at `route.ts` lines 139–150: the
post-call record, carrying the found record's metadata extended with the
adapter's response. -/
def completedStepInput (r : ToolRequest) (workflowId : String) (curMeta : StepMetadata)
    (response : ExaiResponse) : CreateWorkflowStepInput :=
  { workflowId := workflowId
    stepNumber := r.step_number
    findings := r.findings
    hypothesis := jsOrNull r.hypothesis
    confidence := jsOrNull r.confidence
    status := "completed"
    metadata := { curMeta with response := some response } }

/-- `route.ts` lines 135–151: look the current step record up among the
workflow's steps and, when found, insert the post-call `completed` record. -/
def recordCompletedStep (ctx : RouteCtx) (db : DbState) (workflowId : String)
    (response : ExaiResponse) : DbState :=
  match (dbGetWorkflowSteps db workflowId).find?
      (fun s => s.stepNumber = ctx.req.step_number) with
  | some cur =>
      dbCreateWorkflowStep db
        (completedStepInput ctx.req workflowId cur.metadata response) ctx.now
  | none => db

/-- `route.ts` lines 153–159: when the workflow is complete, save the final
result. -/
def finalizeWorkflow (ctx : RouteCtx) (db : DbState) (workflowId : String)
    (response : ExaiResponse) : Except JsError DbState :=
  if ctx.req.next_step_required then Except.ok db
  else dbUpdateWorkflow db workflowId
        { status := some "completed", result := some (some response) } ctx.now

/-- `route.ts` lines 161–170: touch the conversation's `updatedAt` and
return the success payload; a Prisma throw surfaces as the catch-all 500. -/
def touchConversation (db : DbState) (conversationId workflowId : String)
    (response : ExaiResponse) (now : Nat) : RouteResult × DbState :=
  match dbUpdateConversation db conversationId { updatedAt := some now } with
  | .error e => (.err 500 e.message, db)
  | .ok db4 => (.ok conversationId workflowId response, db4)

/-- `route.ts` lines 153–170: finalize the workflow, then touch the
conversation; a throw in finalization surfaces as a 500 with the store as
it was at the throw. -/
def afterFinalize (ctx : RouteCtx) (db2 : DbState) (conversationId workflowId : String)
    (response : ExaiResponse) : RouteResult × DbState :=
  match finalizeWorkflow ctx db2 workflowId response with
  | .error e => (.err 500 e.message, db2)
  | .ok db3 => touchConversation db3 conversationId workflowId response ctx.now

/-- `route.ts` lines 115–170: insert the `running` step record, invoke the
adapter, insert the `completed` step record, finalize the workflow when
`next_step_required` is false, touch the conversation. A thrown error is
caught by the route's `catch` and returned as a 500 with the state the
store had at the throw (there is no transaction). -/
def postAfterWorkflow (ctx : RouteCtx) (db : DbState) (conversationId workflowId : String) :
    RouteResult × DbState :=
  let db1 := dbCreateWorkflowStep db (runningStepInput workflowId ctx.req) ctx.now
  match ctx.adapterResult with
  | .error e => (.err 500 e.message, db1)
  | .ok response =>
      afterFinalize ctx (recordCompletedStep ctx db1 workflowId response)
        conversationId workflowId response

/-- The workflow record created at `route.ts` lines 95–103 when no
`workflowId` was supplied. -/
def newWorkflowRecord (ctx : RouteCtx) (conversationId : String) : Workflow :=
  { id := ctx.newWorkflowId
    conversationId := conversationId
    toolType := ctx.tool
    status := "running"
    currentStep := ctx.req.step_number
    totalSteps := ctx.req.total_steps
    continuationId := jsOrNull ctx.req.continuation_id
    result := none
    createdAt := ctx.now
    updatedAt := ctx.now }

/-- `route.ts` lines 92–113: create the workflow when no `workflowId` was
supplied, otherwise update the stored one — with no status check and no
existence or ownership verification beyond Prisma's own absent-record
throw. -/
def postWorkflowPhase (ctx : RouteCtx) (db : DbState) (conversationId : String) :
    RouteResult × DbState :=
  match ctx.req.workflowId with
  | none =>
      postAfterWorkflow ctx
        { db with workflows := db.workflows ++ [newWorkflowRecord ctx conversationId] }
        conversationId ctx.newWorkflowId
  | some wid =>
      match dbUpdateWorkflow db wid (firstWorkflowUpdate ctx.req) ctx.now with
      | .error e => (.err 500 e.message, db)
      | .ok db2 => postAfterWorkflow ctx db2 conversationId wid

/-- The `POST` handler of `src/app/app/api/exai/[tool]/route.ts`. -/
def POST (ctx : RouteCtx) (db : DbState) : RouteResult × DbState :=
  if VALID_TOOLS.contains ctx.tool then
    match ctx.session with
    | none => (.err 401 "Unauthorized", db)
    | some userId =>
        if zodValid ctx.req then
          match ctx.req.conversationId with
          | some cid => postWorkflowPhase ctx db cid
          | none =>
              let db1 := dbCreateConversation db userId ctx.tool
                (some (ctx.tool ++ " - " ++ ctx.req.step.take 50))
                ctx.newConversationId ctx.now
              postWorkflowPhase ctx db1 ctx.newConversationId
        else (.err 400 "Validation error", db)
  else (.err 400 ("Invalid tool: " ++ ctx.tool), db)

/-- Fixture: a conversation owned by alice. -/
def convC1 : Conversation :=
  { id := "CONV", title := none, toolType := "debug", userId := "alice",
    createdAt := 0, updatedAt := 0 }

/-- Fixture: a workflow that has already reached the terminal status
`completed`. -/
def wfC1 : Workflow :=
  { id := "W1", conversationId := "CONV", toolType := "debug",
    status := "completed", currentStep := 3, totalSteps := 3,
    continuationId := none, result := none, createdAt := 0, updatedAt := 0 }

/-- Fixture store for C1. -/
def dbC1 : DbState := { conversations := [convC1], workflows := [wfC1], steps := [] }

/-- Fixture adapter response for C1. -/
def respC1 : ExaiResponse := { status := "success", content := some "more analysis" }

/-- Fixture request context for C1: a fourth step sent against the
completed workflow `W1`. -/
def ctxC1 : RouteCtx :=
  { tool := "debug", session := some "alice",
    req := { step := "one more step", step_number := 4, total_steps := 5,
             next_step_required := true, findings := "late findings",
             conversationId := some "CONV", workflowId := some "W1" },
    adapterResult := .ok respC1,
    newConversationId := "C-NEW", newWorkflowId := "W-NEW", now := 9 }

/-- Fixture: a conversation owned by alice, for C2. -/
def convC2 : Conversation :=
  { id := "CONV2", title := none, toolType := "analyze", userId := "alice",
    createdAt := 0, updatedAt := 0 }

/-- Fixture store for C2: no workflows, no steps yet. -/
def dbC2 : DbState := { conversations := [convC2], workflows := [], steps := [] }

/-- Fixture adapter response for C2. -/
def respC2 : ExaiResponse := { status := "success", content := some "begin" }

/-- Fixture request context for C2: bob submits a step naming alice's
conversation. -/
def ctxC2 : RouteCtx :=
  { tool := "analyze", session := some "bob",
    req := { step := "look around", step_number := 1, total_steps := 2,
             next_step_required := true, findings := "initial",
             conversationId := some "CONV2" },
    adapterResult := .ok respC2,
    newConversationId := "C-NEW2", newWorkflowId := "W-NEW2", now := 4 }

/-- Fixture: a conversation for C3. -/
def convC3 : Conversation :=
  { id := "CONV3", title := none, toolType := "debug", userId := "alice",
    createdAt := 0, updatedAt := 0 }

/-- Fixture: a running workflow awaiting its final step. -/
def wfC3 : Workflow :=
  { id := "W3", conversationId := "CONV3", toolType := "debug",
    status := "running", currentStep := 1, totalSteps := 2,
    continuationId := none, result := none, createdAt := 0, updatedAt := 0 }

/-- Fixture store for C3. -/
def dbC3 : DbState := { conversations := [convC3], workflows := [wfC3], steps := [] }

/-- Fixture request context for C3: the final step
(`next_step_required = false`) whose adapter call times out. -/
def ctxC3 : RouteCtx :=
  { tool := "debug", session := some "alice",
    req := { step := "final step", step_number := 2, total_steps := 2,
             next_step_required := false, findings := "root cause",
             conversationId := some "CONV3", workflowId := some "W3" },
    adapterResult := .error { name := "Error", message := "EXAI request timeout" },
    newConversationId := "C-NEW3", newWorkflowId := "W-NEW3", now := 6 }

/-- Fixture: a conversation for C5. -/
def convC5 : Conversation :=
  { id := "CONV5", title := none, toolType := "debug", userId := "alice",
    createdAt := 0, updatedAt := 0 }

/-- Fixture: a running workflow for C5. -/
def wfC5 : Workflow :=
  { id := "W5", conversationId := "CONV5", toolType := "debug",
    status := "running", currentStep := 1, totalSteps := 3,
    continuationId := some "old-cont", result := none, createdAt := 0, updatedAt := 0 }

/-- Fixture store for C5. -/
def dbC5 : DbState := { conversations := [convC5], workflows := [wfC5], steps := [] }

/-- Fixture adapter response for C5: the backend returns a fresh
continuation id. -/
def respC5 : ExaiResponse :=
  { status := "success", content := some "ok", continuation_id := some "resp-cont" }

/-- Fixture request context for C5: the request carries its own
continuation id, different from the one the backend will return. -/
def ctxC5 : RouteCtx :=
  { tool := "debug", session := some "alice",
    req := { step := "second step", step_number := 2, total_steps := 3,
             next_step_required := true, findings := "f",
             conversationId := some "CONV5", workflowId := some "W5",
             continuation_id := some "req-cont" },
    adapterResult := .ok respC5,
    newConversationId := "C-NEW5", newWorkflowId := "W-NEW5", now := 8 }

/-- `LocalDatabaseAdapter.updateConversation` (lines 84–86): Prisma applies
exactly the supplied fields. -/
def localUpdateConversation (c : Conversation) (u : UpdateConversationInput) : Conversation :=
  applyConversationUpdate c u

/-- `SupabaseDatabaseAdapter.updateConversation` (lines 195–208): the update
object sent to the store carries only `title` (dropped when absent) and an
unconditional fresh `updated_at`; a supplied `toolType` is never sent. -/
def supabaseUpdateConversation (c : Conversation) (u : UpdateConversationInput)
    (now : Nat) : Conversation :=
  { c with title := u.title.getD c.title, updatedAt := now }

/-- Fixture conversation for C7. -/
def convC7 : Conversation :=
  { id := "c7", title := some "t", toolType := "debug", userId := "u7",
    createdAt := 0, updatedAt := 0 }

/-- Fixture update input for C7: only `toolType` is supplied. -/
def updC7 : UpdateConversationInput := { toolType := some "analyze" }

/-- The possible outcomes of the `fetch` call inside `makeRequest`:
a JSON response, a non-2xx HTTP response, or a rejection carrying the
runtime error name (the abort fired by the timeout timer rejects with the
name `AbortError`). -/
inductive FetchOutcome where
  | ok (response : ExaiResponse)
  | httpError (status : Nat) (statusText : String)
  | rejected (name message : String)
deriving DecidableEq

/-- `LocalExaiAdapter.makeRequest` (part_008 lines 21–53): a non-ok HTTP
response throws inside the `try` and is re-wrapped by the `catch`; an
`AbortError` becomes a plain `Error` with message `EXAI request timeout`;
any other rejection is wrapped as `EXAI request failed: ...`. -/
def localMakeRequest (o : FetchOutcome) : Except JsError ExaiResponse :=
  match o with
  | .ok r => .ok r
  | .httpError status statusText =>
      .error { name := "Error",
               message := "EXAI request failed: EXAI daemon error: " ++
                 toString status ++ " " ++ statusText }
  | .rejected n m =>
      if n = "AbortError" then
        .error { name := "Error", message := "EXAI request timeout" }
      else
        .error { name := "Error", message := "EXAI request failed: " ++ m }

/-- `SupabaseExaiAdapter.makeRequest` (lines 23–55): textually identical
error handling to the local adapter. -/
def supabaseMakeRequest (o : FetchOutcome) : Except JsError ExaiResponse :=
  match o with
  | .ok r => .ok r
  | .httpError status statusText =>
      .error { name := "Error",
               message := "EXAI request failed: EXAI daemon error: " ++
                 toString status ++ " " ++ statusText }
  | .rejected n m =>
      if n = "AbortError" then
        .error { name := "Error", message := "EXAI request timeout" }
      else
        .error { name := "Error", message := "EXAI request failed: " ++ m }

/-- The runtime error-class name of a failed request, i.e. the only kind
information a caller could dispatch on besides the message. -/
def errorNameOf (r : Except JsError ExaiResponse) : Option String :=
  match r with
  | .error e => some e.name
  | .ok _ => none

/-- An interleaving of two sequences of store operations, as produced by
two concurrent request handlers whose own operations stay in program
order. -/
inductive Interleaving {α : Type} : List α → List α → List α → Prop where
  | nil : Interleaving [] [] []
  | left {x : α} {xs ys zs : List α} :
      Interleaving xs ys zs → Interleaving (x :: xs) ys (x :: zs)
  | right {y : α} {xs ys zs : List α} :
      Interleaving xs ys zs → Interleaving xs (y :: ys) (y :: zs)

/-- Apply a schedule of workflow updates to the shared workflow record —
exactly what the store does when the interleaved `db.updateWorkflow` calls
of concurrent requests land on the same row. -/
def execUpdates (w : Workflow) (us : List UpdateWorkflowInput) (now : Nat) : Workflow :=
  us.foldl (fun acc u => applyWorkflowUpdate acc u now) w

/-- Fixture: the shared workflow two concurrent requests race on. -/
def wfC9 : Workflow :=
  { id := "W9", conversationId := "CONV9", toolType := "debug",
    status := "running", currentStep := 0, totalSteps := 3,
    continuationId := none, result := none, createdAt := 0, updatedAt := 0 }

/-- Fixture: concurrent request A, submitting step 1. -/
def reqC9A : ToolRequest :=
  { step := "step one", step_number := 1, total_steps := 3,
    next_step_required := true, findings := "a",
    conversationId := some "CONV9", workflowId := some "W9" }

/-- Fixture: concurrent request B, submitting step 2. -/
def reqC9B : ToolRequest :=
  { step := "step two", step_number := 2, total_steps := 3,
    next_step_required := true, findings := "b",
    conversationId := some "CONV9", workflowId := some "W9" }

/-- `AdapterFactory.getMode` (part_009 lines 24–31): anything other than
the exact strings `local` and `supabase` (including an unset variable)
falls back to `local` after a console warning. -/
def getMode (adapterModeEnv : Option String) : String :=
  match adapterModeEnv with
  | some m => if m = "local" ∨ m = "supabase" then m else "local"
  | none => "local"

/-- The adapter instance `AdapterFactory.getExaiAdapter` constructs in
`local` mode. -/
inductive ExaiAdapterInstance where
  | localExai (daemonUrl : String) (timeoutMs : Nat)
deriving DecidableEq

/-- The adapter instance `AdapterFactory.getDatabaseAdapter` constructs in
`local` mode. -/
inductive DatabaseAdapterInstance where
  | localDb
deriving DecidableEq

/-- `AdapterFactory.getExaiAdapter` (part_009 lines 36–62): `local` mode
builds a `LocalExaiAdapter` from the environment (with defaults); the
`supabase` case throws; the numeric parsing of `EXAI_TIMEOUT` is
abstracted into an optional number. -/
def getExaiAdapter (adapterModeEnv daemonUrlEnv : Option String)
    (timeoutEnv : Option Nat) : Except JsError ExaiAdapterInstance :=
  match getMode adapterModeEnv with
  | "local" =>
      .ok (.localExai (daemonUrlEnv.getD "http://127.0.0.1:8765") (timeoutEnv.getD 300000))
  | "supabase" =>
      .error { name := "Error", message := "Supabase EXAI adapter not yet implemented" }
  | m => .error { name := "Error", message := "Unsupported adapter mode: " ++ m }

/-- `AdapterFactory.getDatabaseAdapter` (part_009 lines 67–91). -/
def getDatabaseAdapter (adapterModeEnv : Option String) :
    Except JsError DatabaseAdapterInstance :=
  match getMode adapterModeEnv with
  | "local" => .ok .localDb
  | "supabase" =>
      .error { name := "Error", message := "Supabase database adapter not yet implemented" }
  | m => .error { name := "Error", message := "Unsupported adapter mode: " ++ m }

/-- Fixture: a conversation for C4. -/
def convC4 : Conversation :=
  { id := "CONV4", title := none, toolType := "thinkdeep", userId := "alice",
    createdAt := 0, updatedAt := 0 }

/-- Fixture: a running workflow awaiting its final step, for C4. -/
def wfC4 : Workflow :=
  { id := "W4", conversationId := "CONV4", toolType := "thinkdeep",
    status := "running", currentStep := 1, totalSteps := 2,
    continuationId := none, result := none, createdAt := 0, updatedAt := 0 }

/-- Fixture store for C4. -/
def dbC4 : DbState := { conversations := [convC4], workflows := [wfC4], steps := [] }

/-- Fixture adapter response for C4. -/
def respC4 : ExaiResponse := { status := "success", content := some "final analysis" }

/-- Fixture request context for C4: the final step with a successful
adapter call. -/
def ctxC4 : RouteCtx :=
  { tool := "thinkdeep", session := some "alice",
    req := { step := "wrap up", step_number := 2, total_steps := 2,
             next_step_required := false, findings := "done",
             conversationId := some "CONV4", workflowId := some "W4" },
    adapterResult := .ok respC4,
    newConversationId := "C-NEW4", newWorkflowId := "W-NEW4", now := 3 }

/-- Fixture: a conversation for C6. -/
def convC6 : Conversation :=
  { id := "CONV6", title := none, toolType := "codereview", userId := "alice",
    createdAt := 0, updatedAt := 0 }

/-- Fixture: a running workflow for C6, with one earlier step record. -/
def wfC6 : Workflow :=
  { id := "W6", conversationId := "CONV6", toolType := "codereview",
    status := "running", currentStep := 1, totalSteps := 3,
    continuationId := none, result := none, createdAt := 0, updatedAt := 0 }

/-- Fixture: a step record already in the log before the request. -/
def stepC6 : WorkflowStep :=
  { workflowId := "W6", stepNumber := 1, findings := "first pass",
    hypothesis := none, confidence := none, status := "completed",
    metadata := { step := "initial review" }, createdAt := 1 }

/-- Fixture store for C6. -/
def dbC6 : DbState :=
  { conversations := [convC6], workflows := [wfC6], steps := [stepC6] }

/-- Fixture adapter response for C6. -/
def respC6 : ExaiResponse := { status := "success", content := some "second pass" }

/-- Fixture request context for C6: a mid-workflow step with a successful
adapter call. -/
def ctxC6 : RouteCtx :=
  { tool := "codereview", session := some "alice",
    req := { step := "dig deeper", step_number := 2, total_steps := 3,
             next_step_required := true, findings := "more findings",
             conversationId := some "CONV6", workflowId := some "W6" },
    adapterResult := .ok respC6,
    newConversationId := "C-NEW6", newWorkflowId := "W-NEW6", now := 5 }

/-! ## Theorems -/

/-- Claim C1: the route accepts a step against a `completed` workflow —
there is no Conflict rejection, the request succeeds, and the stored
workflow is mutated (its status is flipped back to `running`). This
contradicts the claim, which requires a Conflict error and an unchanged
record. -/
theorem C1_terminal_workflow_accepted_and_mutated :
    dbC1.workflows.map Workflow.status = ["completed"] ∧
    (POST ctxC1 dbC1).fst = RouteResult.ok "CONV" "W1" respC1 ∧
    (getWorkflow (POST ctxC1 dbC1).snd "W1").map Workflow.status = some "running" := by
  decide

/-- Claim C2: the route never loads the supplied conversation and never
compares its owner with the caller: bob's request against alice's
conversation succeeds, and writes occur (a workflow and two step records
are persisted). No 403 and no 404 is possible on this path. This
contradicts the claim. -/
theorem C2_no_ownership_check_writes_proceed :
    (getConversation dbC2 "CONV2").map Conversation.userId = some "alice" ∧
    ctxC2.session = some "bob" ∧
    (POST ctxC2 dbC2).fst = RouteResult.ok "CONV2" "W-NEW2" respC2 ∧
    (POST ctxC2 dbC2).snd.workflows.length = 1 ∧
    (POST ctxC2 dbC2).snd.steps.length = 2 := by
  decide

/-- Claim C3: when the adapter call fails on a final step of an existing
workflow, the workflow does NOT remain `running`: the route had already
set its status to `completed` (a terminal state) before invoking the
adapter, and the caller receives a plain 500 carrying the raw message, not
an error classified as retryable. The pre-call `running` step record is
retained. This contradicts the claim's status requirement. -/
theorem C3_adapter_failure_leaves_terminal_status :
    (POST ctxC3 dbC3).fst = RouteResult.err 500 "EXAI request timeout" ∧
    (getWorkflow (POST ctxC3 dbC3).snd "W3").map Workflow.status = some "completed" ∧
    (POST ctxC3 dbC3).snd.steps.map WorkflowStep.status = ["running"] := by
  decide

/-- Claim C5 counterexample: after a successful call the stored
continuation id is the one supplied in the request (`req-cont`), not the
one the adapter's response returned (`resp-cont`) — refuting the claim at
this input. -/
theorem C5_counterexample_request_continuation_persisted :
    respC5.continuation_id = some "resp-cont" ∧
    (POST ctxC5 dbC5).fst = RouteResult.ok "CONV5" "W5" respC5 ∧
    (getWorkflow (POST ctxC5 dbC5).snd "W5").map Workflow.continuationId =
      some (some "req-cont") := by
  decide

/-- Claim C7 counterexample: on the identical fixture input that supplies
only `toolType`, the local implementation updates `toolType` while the
Supabase implementation leaves it unchanged (even at an identical
timestamp), so the two adapters do not produce identical observable
outputs for `updateConversation`. -/
theorem C7_counterexample_updateConversation_diverges :
    (localUpdateConversation convC7 updC7).toolType = "analyze" ∧
    (supabaseUpdateConversation convC7 updC7 0).toolType = "debug" ∧
    localUpdateConversation convC7 updC7 ≠ supabaseUpdateConversation convC7 updC7 0 := by
  decide

/-- Claim C7 (amended): the two `updateConversation` implementations agree
only up to timestamps and only when the input supplies no `toolType`: in
that case every field except `updatedAt` of their outputs coincides. A
supplied `toolType` is applied by the local adapter and dropped by the
Supabase one, and Supabase always refreshes `updatedAt`. -/
theorem C7_amended_agreement_without_toolType (c : Conversation)
    (u : UpdateConversationInput) (now : Nat) (h : u.toolType = none) :
    (localUpdateConversation c u).id = (supabaseUpdateConversation c u now).id ∧
    (localUpdateConversation c u).title = (supabaseUpdateConversation c u now).title ∧
    (localUpdateConversation c u).toolType = (supabaseUpdateConversation c u now).toolType ∧
    (localUpdateConversation c u).userId = (supabaseUpdateConversation c u now).userId ∧
    (localUpdateConversation c u).createdAt = (supabaseUpdateConversation c u now).createdAt := by
  simp [localUpdateConversation, supabaseUpdateConversation, applyConversationUpdate, h]

/-- Witness for the amended C7 theorem at a concrete input. -/
theorem C7_amended_agreement_witness :
    (localUpdateConversation convC7 { title := some (some "renamed") }).id =
      (supabaseUpdateConversation convC7 { title := some (some "renamed") } 5).id ∧
    (localUpdateConversation convC7 { title := some (some "renamed") }).title =
      (supabaseUpdateConversation convC7 { title := some (some "renamed") } 5).title ∧
    (localUpdateConversation convC7 { title := some (some "renamed") }).toolType =
      (supabaseUpdateConversation convC7 { title := some (some "renamed") } 5).toolType ∧
    (localUpdateConversation convC7 { title := some (some "renamed") }).userId =
      (supabaseUpdateConversation convC7 { title := some (some "renamed") } 5).userId ∧
    (localUpdateConversation convC7 { title := some (some "renamed") }).createdAt =
      (supabaseUpdateConversation convC7 { title := some (some "renamed") } 5).createdAt :=
  C7_amended_agreement_without_toolType convC7 { title := some (some "renamed") } 5 rfl

/-- Claim C8 counterexample: on timeout both adapters throw a plain `Error`
(runtime class name `Error`) whose message is `EXAI request timeout`; its
error kind is identical to that of a generic failure, so no distinct
`AdapterTimeoutError` kind is raised. -/
theorem C8_counterexample_timeout_is_generic_error :
    localMakeRequest (FetchOutcome.rejected "AbortError" "This operation was aborted")
      = Except.error { name := "Error", message := "EXAI request timeout" } ∧
    supabaseMakeRequest (FetchOutcome.rejected "AbortError" "This operation was aborted")
      = Except.error { name := "Error", message := "EXAI request timeout" } ∧
    errorNameOf
        (localMakeRequest (FetchOutcome.rejected "AbortError" "This operation was aborted"))
      = errorNameOf (localMakeRequest (FetchOutcome.httpError 500 "Internal Server Error")) :=
  ⟨rfl, rfl, rfl⟩

/-- Claim C8 (amended): the two adapters have identical `makeRequest`
behavior; on timeout they throw an error distinguished from generic
failures only by its message, `EXAI request timeout` — every error either
adapter raises has the same runtime kind `Error`, and no distinct
`AdapterTimeoutError` kind exists. -/
theorem C8_amended_timeout_distinguished_by_message_only (o : FetchOutcome) (m : String) :
    localMakeRequest o = supabaseMakeRequest o ∧
    (o = FetchOutcome.rejected "AbortError" m →
      localMakeRequest o = Except.error { name := "Error", message := "EXAI request timeout" }) ∧
    (∀ e, localMakeRequest o = Except.error e → e.name = "Error") := by
  refine ⟨?_, ?_, ?_⟩
  · cases o <;> rfl
  · intro h
    subst h
    rfl
  · intro e he
    cases o with
    | ok r => simp [localMakeRequest] at he
    | httpError s t =>
        simp only [localMakeRequest] at he
        cases he
        rfl
    | rejected n msg =>
        simp only [localMakeRequest] at he
        by_cases hn : n = "AbortError"
        · rw [if_pos hn] at he
          cases he
          rfl
        · rw [if_neg hn] at he
          cases he
          rfl

/-- Witness for the amended C8 theorem at the timeout outcome. -/
theorem C8_amended_witness :
    localMakeRequest (FetchOutcome.rejected "AbortError" "aborted")
        = supabaseMakeRequest (FetchOutcome.rejected "AbortError" "aborted") ∧
    (FetchOutcome.rejected "AbortError" "aborted" = FetchOutcome.rejected "AbortError" "aborted" →
      localMakeRequest (FetchOutcome.rejected "AbortError" "aborted")
        = Except.error { name := "Error", message := "EXAI request timeout" }) ∧
    (∀ e, localMakeRequest (FetchOutcome.rejected "AbortError" "aborted")
        = Except.error e → e.name = "Error") :=
  C8_amended_timeout_distinguished_by_message_only
    (FetchOutcome.rejected "AbortError" "aborted") "aborted"

/-- Claim C9 counterexample: the route's `updateWorkflow` writes carry no
serialization (no lock, no version check), so the schedule in which
step 2's write lands before step 1's is a legal interleaving; after both
requests succeed the workflow's `currentStep` is 1, strictly lower than
the highest successfully applied step number 2 — refuting the claim. -/
theorem C9_counterexample_currentStep_regresses :
    Interleaving [firstWorkflowUpdate reqC9A] [firstWorkflowUpdate reqC9B]
      [firstWorkflowUpdate reqC9B, firstWorkflowUpdate reqC9A] ∧
    reqC9B.step_number = 2 ∧
    (execUpdates wfC9 [firstWorkflowUpdate reqC9B, firstWorkflowUpdate reqC9A] 7).currentStep
      = 1 ∧
    (execUpdates wfC9 [firstWorkflowUpdate reqC9B, firstWorkflowUpdate reqC9A] 7).currentStep
      < reqC9B.step_number :=
  ⟨Interleaving.right (Interleaving.left Interleaving.nil), rfl, by decide, by decide⟩

/-- Claim C9 (amended): the read-modify-write is not serialized; for two
concurrent submissions the final `currentStep` is simply that of whichever
request's `updateWorkflow` write executed last (last writer wins), which
is lower than the highest applied `stepNumber` whenever the lower-numbered
write lands last. -/
theorem C9_amended_last_writer_wins (w : Workflow) (r1 r2 : ToolRequest) (now : Nat)
    (sched : List UpdateWorkflowInput)
    (h : Interleaving [firstWorkflowUpdate r1] [firstWorkflowUpdate r2] sched) :
    (sched = [firstWorkflowUpdate r1, firstWorkflowUpdate r2] ∧
      (execUpdates w sched now).currentStep = r2.step_number) ∨
    (sched = [firstWorkflowUpdate r2, firstWorkflowUpdate r1] ∧
      (execUpdates w sched now).currentStep = r1.step_number) := by
  cases h with
  | left h1 =>
      cases h1 with
      | right h2 =>
          cases h2
          left
          exact ⟨rfl, by simp [execUpdates, applyWorkflowUpdate, firstWorkflowUpdate]⟩
  | right h1 =>
      cases h1 with
      | left h2 =>
          cases h2
          right
          exact ⟨rfl, by simp [execUpdates, applyWorkflowUpdate, firstWorkflowUpdate]⟩

/-- Witness for the amended C9 theorem at a concrete schedule. -/
theorem C9_amended_witness :
    ([firstWorkflowUpdate reqC9A, firstWorkflowUpdate reqC9B]
        = [firstWorkflowUpdate reqC9A, firstWorkflowUpdate reqC9B] ∧
      (execUpdates wfC9 [firstWorkflowUpdate reqC9A, firstWorkflowUpdate reqC9B] 7).currentStep
        = reqC9B.step_number) ∨
    ([firstWorkflowUpdate reqC9A, firstWorkflowUpdate reqC9B]
        = [firstWorkflowUpdate reqC9B, firstWorkflowUpdate reqC9A] ∧
      (execUpdates wfC9 [firstWorkflowUpdate reqC9A, firstWorkflowUpdate reqC9B] 7).currentStep
        = reqC9A.step_number) :=
  C9_amended_last_writer_wins wfC9 reqC9A reqC9B 7
    [firstWorkflowUpdate reqC9A, firstWorkflowUpdate reqC9B]
    (Interleaving.left (Interleaving.right Interleaving.nil))

/-- Claim C10: for every `ADAPTER_MODE` value other than the exact strings
`local` and `supabase` — including unset — `getMode` returns `local`
without throwing, and both factory getters then hand out the local backend
adapters. -/
theorem C10_invalid_mode_defaults_to_local (env daemonUrlEnv : Option String)
    (timeoutEnv : Option Nat)
    (h1 : env ≠ some "local") (h2 : env ≠ some "supabase") :
    getMode env = "local" ∧
    getExaiAdapter env daemonUrlEnv timeoutEnv =
      Except.ok (ExaiAdapterInstance.localExai
        (daemonUrlEnv.getD "http://127.0.0.1:8765") (timeoutEnv.getD 300000)) ∧
    getDatabaseAdapter env = Except.ok DatabaseAdapterInstance.localDb := by
  have hm : getMode env = "local" := by
    cases env with
    | none => rfl
    | some m =>
        have hm1 : m ≠ "local" := fun hx => h1 (by rw [hx])
        have hm2 : m ≠ "supabase" := fun hx => h2 (by rw [hx])
        simp [getMode, hm1, hm2]
  refine ⟨hm, ?_, ?_⟩
  · rw [getExaiAdapter, hm]
    rfl
  · rw [getDatabaseAdapter, hm]
    rfl

/-- Witness for C10 with a misconfigured mode string. -/
theorem C10_witness :
    getMode (some "production") = "local" ∧
    getExaiAdapter (some "production") none none =
      Except.ok (ExaiAdapterInstance.localExai "http://127.0.0.1:8765" 300000) ∧
    getDatabaseAdapter (some "production") = Except.ok DatabaseAdapterInstance.localDb :=
  C10_invalid_mode_defaults_to_local (some "production") none none
    (by decide) (by decide)

/-! ## Helper lemmas shared by the workflow-state and step-log theorems -/

/-- Applying a partial update never changes a workflow's id. -/
theorem applyWorkflowUpdate_id (w : Workflow) (u : UpdateWorkflowInput) (now : Nat) :
    (applyWorkflowUpdate w u now).id = w.id := rfl

/-- Looking a workflow up after an update-by-id applies the update to the
looked-up record. -/
theorem find?_updateWorkflowById (l : List Workflow) (id : String)
    (u : UpdateWorkflowInput) (now : Nat) :
    (updateWorkflowById l id u now).find? (fun w => w.id = id) =
      (l.find? (fun w => w.id = id)).map (fun w => applyWorkflowUpdate w u now) := by
  induction l with
  | nil => rfl
  | cons a t ih =>
      by_cases h : a.id = id
      · simp [updateWorkflowById, List.find?_cons, h, applyWorkflowUpdate_id]
      · simp only [updateWorkflowById, List.map_cons, if_neg h] at ih ⊢
        simp [List.find?_cons, h, ih]

/-- `getWorkflow` after `updateWorkflowById` on the same id. -/
theorem getWorkflow_update (db : DbState) (id : String) (u : UpdateWorkflowInput) (now : Nat) :
    getWorkflow { db with workflows := updateWorkflowById db.workflows id u now } id =
      (getWorkflow db id).map (fun w => applyWorkflowUpdate w u now) :=
  find?_updateWorkflowById db.workflows id u now

/-- A present workflow makes `dbUpdateWorkflow` succeed with the mapped
store. -/
theorem dbUpdateWorkflow_of_found (db : DbState) (id : String) (u : UpdateWorkflowInput)
    (now : Nat) (h : (getWorkflow db id).isSome = true) :
    dbUpdateWorkflow db id u now =
      .ok { db with workflows := updateWorkflowById db.workflows id u now } := by
  unfold getWorkflow at h
  unfold dbUpdateWorkflow
  cases hf : db.workflows.find? (fun w => w.id = id) with
  | none => rw [hf] at h; simp at h
  | some w => rfl

/-- A successful `dbUpdateWorkflow` has exactly the mapped store. -/
theorem dbUpdateWorkflow_ok_elim {db db2 : DbState} {id : String} {u : UpdateWorkflowInput}
    {now : Nat} (h : dbUpdateWorkflow db id u now = .ok db2) :
    db2 = { db with workflows := updateWorkflowById db.workflows id u now } := by
  unfold dbUpdateWorkflow at h
  cases hf : db.workflows.find? (fun w => w.id = id) with
  | none => rw [hf] at h; simp at h
  | some w => rw [hf] at h; exact (Except.ok.inj h).symm

/-- A successful `dbUpdateConversation` touches only the conversations. -/
theorem dbUpdateConversation_ok_elim {db db2 : DbState} {id : String}
    {u : UpdateConversationInput} (h : dbUpdateConversation db id u = .ok db2) :
    db2.workflows = db.workflows ∧ db2.steps = db.steps := by
  unfold dbUpdateConversation at h
  cases hf : db.conversations.find? (fun c => c.id = id) with
  | none => rw [hf] at h; simp at h
  | some c =>
      rw [hf] at h
      cases Except.ok.inj h
      exact ⟨rfl, rfl⟩

/-- Two stores with the same workflow list agree on `getWorkflow`. -/
theorem getWorkflow_eq_of_workflows {db db2 : DbState} (h : db2.workflows = db.workflows)
    (id : String) : getWorkflow db2 id = getWorkflow db id := by
  unfold getWorkflow
  rw [h]

/-- Recording the post-call step never touches the workflow list. -/
theorem recordCompletedStep_workflows (ctx : RouteCtx) (db : DbState) (wid : String)
    (resp : ExaiResponse) : (recordCompletedStep ctx db wid resp).workflows = db.workflows := by
  unfold recordCompletedStep
  cases hf : (dbGetWorkflowSteps db wid).find? (fun s => s.stepNumber = ctx.req.step_number) <;>
    rfl

/-- When the current step record is found, the post-call record is
inserted. -/
theorem recordCompletedStep_of_found {ctx : RouteCtx} {db : DbState} {wid : String}
    {resp : ExaiResponse} {cur : WorkflowStep}
    (h : (dbGetWorkflowSteps db wid).find?
      (fun s => s.stepNumber = ctx.req.step_number) = some cur) :
    recordCompletedStep ctx db wid resp =
      dbCreateWorkflowStep db (completedStepInput ctx.req wid cur.metadata resp) ctx.now := by
  unfold recordCompletedStep
  rw [h]

/-- With the workflow present, finalization succeeds and updates the
workflow exactly when `next_step_required` is false. -/
theorem finalizeWorkflow_of_found (ctx : RouteCtx) (db : DbState) (wid : String)
    (resp : ExaiResponse) (h : (getWorkflow db wid).isSome = true) :
    finalizeWorkflow ctx db wid resp =
      .ok (if ctx.req.next_step_required then db
           else { db with workflows := (updateWorkflowById db.workflows wid
                    { status := some "completed", result := some (some resp) } ctx.now) }) := by
  unfold finalizeWorkflow
  by_cases hn : ctx.req.next_step_required = true
  · simp [hn]
  · simp only [hn, if_false, Bool.false_eq_true, if_neg]
    rw [dbUpdateWorkflow_of_found db wid _ ctx.now h]

/-- A successful finalization preserves the step log. -/
theorem finalizeWorkflow_ok_steps {ctx : RouteCtx} {db db3 : DbState} {wid : String}
    {resp : ExaiResponse} (h : finalizeWorkflow ctx db wid resp = .ok db3) :
    db3.steps = db.steps := by
  unfold finalizeWorkflow at h
  by_cases hn : ctx.req.next_step_required = true
  · rw [if_pos hn] at h
    cases Except.ok.inj h
    rfl
  · rw [if_neg hn] at h
    rw [dbUpdateWorkflow_ok_elim h]

/-- Membership in a stable step-number insertion. -/
theorem mem_insertByStepNumber {a s : WorkflowStep} {l : List WorkflowStep} :
    a ∈ insertByStepNumber s l ↔ a = s ∨ a ∈ l := by
  induction l with
  | nil => simp [insertByStepNumber]
  | cons b t ih =>
      unfold insertByStepNumber
      by_cases h : s.stepNumber ≤ b.stepNumber
      · simp [h]
      · simp only [if_neg h, List.mem_cons, ih]
        tauto

/-- Sorting by step number preserves membership. -/
theorem mem_sortByStepNumber {a : WorkflowStep} {l : List WorkflowStep} :
    a ∈ sortByStepNumber l ↔ a ∈ l := by
  induction l with
  | nil => simp [sortByStepNumber]
  | cons b t ih =>
      show a ∈ insertByStepNumber b (sortByStepNumber t) ↔ _
      rw [mem_insertByStepNumber, ih]
      simp

/-- Touching the conversation leaves the workflow list unchanged. -/
theorem touchConversation_snd_workflows (db : DbState) (cid wid : String)
    (resp : ExaiResponse) (now : Nat) :
    (touchConversation db cid wid resp now).snd.workflows = db.workflows := by
  unfold touchConversation
  cases hc : dbUpdateConversation db cid { updatedAt := some now } with
  | error e => rfl
  | ok db4 => exact (dbUpdateConversation_ok_elim hc).1

/-- Touching the conversation leaves the step log unchanged. -/
theorem touchConversation_snd_steps (db : DbState) (cid wid : String)
    (resp : ExaiResponse) (now : Nat) :
    (touchConversation db cid wid resp now).snd.steps = db.steps := by
  unfold touchConversation
  cases hc : dbUpdateConversation db cid { updatedAt := some now } with
  | error e => rfl
  | ok db4 => exact (dbUpdateConversation_ok_elim hc).2

/-- The workflow state after finalization and conversation touch, for a
present workflow. -/
theorem afterFinalize_getWorkflow (ctx : RouteCtx) (db2 : DbState) (cid wid : String)
    (resp : ExaiResponse) (w : Workflow) (hw2 : getWorkflow db2 wid = some w) :
    getWorkflow (afterFinalize ctx db2 cid wid resp).snd wid =
      some (if ctx.req.next_step_required then w
            else applyWorkflowUpdate w
              { status := some "completed", result := some (some resp) } ctx.now) := by
  unfold afterFinalize
  have hfound : (getWorkflow db2 wid).isSome = true := by rw [hw2]; rfl
  rw [finalizeWorkflow_of_found ctx db2 wid resp hfound]
  by_cases hn : ctx.req.next_step_required = true
  · rw [if_pos hn, if_pos hn]
    show getWorkflow (touchConversation db2 cid wid resp ctx.now).snd wid = some w
    rw [getWorkflow_eq_of_workflows (touchConversation_snd_workflows db2 cid wid resp ctx.now) wid]
    exact hw2
  · rw [if_neg hn, if_neg hn]
    show getWorkflow (touchConversation
        { db2 with workflows := (updateWorkflowById db2.workflows wid
            { status := some "completed", result := some (some resp) } ctx.now) }
        cid wid resp ctx.now).snd wid = _
    rw [getWorkflow_eq_of_workflows (touchConversation_snd_workflows _ cid wid resp ctx.now) wid]
    rw [getWorkflow_update db2 wid _ ctx.now, hw2]
    rfl

/-- The workflow state after the whole post-adapter tail, for a present
workflow and a successful adapter call. -/
theorem postAfterWorkflow_getWorkflow (ctx : RouteCtx) (db : DbState) (cid wid : String)
    (resp : ExaiResponse) (w : Workflow)
    (hres : ctx.adapterResult = .ok resp)
    (hw : getWorkflow db wid = some w) :
    getWorkflow (postAfterWorkflow ctx db cid wid).snd wid =
      some (if ctx.req.next_step_required then w
            else applyWorkflowUpdate w
              { status := some "completed", result := some (some resp) } ctx.now) := by
  unfold postAfterWorkflow
  rw [hres]
  show getWorkflow (afterFinalize ctx
      (recordCompletedStep ctx
        (dbCreateWorkflowStep db (runningStepInput wid ctx.req) ctx.now) wid resp)
      cid wid resp).snd wid = _
  apply afterFinalize_getWorkflow
  rw [getWorkflow_eq_of_workflows (recordCompletedStep_workflows ctx _ wid resp) wid]
  exact hw

/-- The workflow state after the workflow phase when a `workflowId` was
supplied and the workflow exists. -/
theorem postWorkflowPhase_getWorkflow_some (ctx : RouteCtx) (db : DbState) (cid wid : String)
    (resp : ExaiResponse) (w : Workflow)
    (hres : ctx.adapterResult = .ok resp)
    (hwid : ctx.req.workflowId = some wid)
    (hw : getWorkflow db wid = some w) :
    getWorkflow (postWorkflowPhase ctx db cid).snd wid =
      some (if ctx.req.next_step_required then
              applyWorkflowUpdate w (firstWorkflowUpdate ctx.req) ctx.now
            else
              applyWorkflowUpdate
                (applyWorkflowUpdate w (firstWorkflowUpdate ctx.req) ctx.now)
                { status := some "completed", result := some (some resp) } ctx.now) := by
  have hfound : (getWorkflow db wid).isSome = true := by rw [hw]; rfl
  unfold postWorkflowPhase
  split
  next h => rw [hwid] at h; simp at h
  next x h =>
      rw [hwid] at h
      injection h with hx
      subst hx
      rw [dbUpdateWorkflow_of_found db wid (firstWorkflowUpdate ctx.req) ctx.now hfound]
      show getWorkflow (postAfterWorkflow ctx
          { db with workflows := (updateWorkflowById db.workflows wid
              (firstWorkflowUpdate ctx.req) ctx.now) } cid wid).snd wid = _
      apply postAfterWorkflow_getWorkflow ctx _ cid wid resp _ hres
      rw [getWorkflow_update db wid (firstWorkflowUpdate ctx.req) ctx.now, hw]
      rfl

/-- The workflow state after the workflow phase when no `workflowId` was
supplied and the server-assigned id is fresh. -/
theorem postWorkflowPhase_getWorkflow_none (ctx : RouteCtx) (db : DbState) (cid : String)
    (resp : ExaiResponse)
    (hres : ctx.adapterResult = .ok resp)
    (hwid : ctx.req.workflowId = none)
    (hfresh : ∀ w ∈ db.workflows, w.id ≠ ctx.newWorkflowId) :
    getWorkflow (postWorkflowPhase ctx db cid).snd ctx.newWorkflowId =
      some (if ctx.req.next_step_required then newWorkflowRecord ctx cid
            else applyWorkflowUpdate (newWorkflowRecord ctx cid)
              { status := some "completed", result := some (some resp) } ctx.now) := by
  unfold postWorkflowPhase
  split
  next h =>
      apply postAfterWorkflow_getWorkflow ctx _ cid _ resp _ hres
      unfold getWorkflow
      show (db.workflows ++ [newWorkflowRecord ctx cid]).find?
          (fun w => w.id = ctx.newWorkflowId) = _
      rw [List.find?_append]
      have h1 : db.workflows.find? (fun w => w.id = ctx.newWorkflowId) = none := by
        rw [List.find?_eq_none]
        intro x hx
        simp [hfresh x hx]
      rw [h1]
      simp [List.find?, newWorkflowRecord]
  next x h => rw [hwid] at h; simp at h

/-- With a valid tool, an authenticated session, a body that passes zod and
a supplied `conversationId`, `POST` is the workflow phase on the unchanged
store. -/
theorem POST_success_someConv (ctx : RouteCtx) (db : DbState) (uid cid : String)
    (htool : VALID_TOOLS.contains ctx.tool = true)
    (hsess : ctx.session = some uid)
    (hzod : zodValid ctx.req = true)
    (hconv : ctx.req.conversationId = some cid) :
    POST ctx db = postWorkflowPhase ctx db cid := by
  unfold POST
  simp only [htool, hsess, hzod, hconv, if_true]

/-- With a valid tool, an authenticated session, a body that passes zod and
no `conversationId`, `POST` is the workflow phase on the store extended
with the freshly created conversation. -/
theorem POST_success_noneConv (ctx : RouteCtx) (db : DbState) (uid : String)
    (htool : VALID_TOOLS.contains ctx.tool = true)
    (hsess : ctx.session = some uid)
    (hzod : zodValid ctx.req = true)
    (hconv : ctx.req.conversationId = none) :
    POST ctx db = postWorkflowPhase ctx
      (dbCreateConversation db uid ctx.tool
        (some (ctx.tool ++ " - " ++ ctx.req.step.take 50)) ctx.newConversationId ctx.now)
      ctx.newConversationId := by
  unfold POST
  simp only [htool, hsess, hzod, hconv, if_true]

/-- The value of the final workflow record after a successful workflow
phase, looked up at the effective workflow id. -/
theorem phase_final_workflow_value (ctx : RouteCtx) (db : DbState) (cid : String)
    (resp : ExaiResponse)
    (hres : ctx.adapterResult = .ok resp)
    (hwid : ctx.req.workflowId.all (fun wid => (getWorkflow db wid).isSome) = true)
    (hfresh : ctx.req.workflowId = none →
      db.workflows.all (fun w => w.id != ctx.newWorkflowId) = true) :
    ∃ w0, getWorkflow (postWorkflowPhase ctx db cid).snd
        (ctx.req.workflowId.getD ctx.newWorkflowId) = some w0 ∧
      w0.continuationId = jsOrNull ctx.req.continuation_id ∧
      w0.currentStep = ctx.req.step_number ∧
      w0.status = (if ctx.req.next_step_required then "running" else "completed") ∧
      (ctx.req.next_step_required = false → w0.result = some resp) := by
  cases hw : ctx.req.workflowId with
  | some wid =>
      have hfound : (getWorkflow db wid).isSome = true := by
        rw [hw] at hwid; simpa using hwid
      obtain ⟨w, hww⟩ := Option.isSome_iff_exists.mp hfound
      simp only [Option.getD_some]
      rw [postWorkflowPhase_getWorkflow_some ctx db cid wid resp w hres hw hww]
      refine ⟨_, rfl, ?_, ?_, ?_, ?_⟩ <;>
        by_cases hn : ctx.req.next_step_required = true <;>
          simp [hn, applyWorkflowUpdate, firstWorkflowUpdate]
  | none =>
      have hfr : ∀ x ∈ db.workflows, x.id ≠ ctx.newWorkflowId := by
        intro x hx
        have hb := List.all_eq_true.mp (hfresh hw) x hx
        simpa using hb
      simp only [Option.getD_none]
      rw [postWorkflowPhase_getWorkflow_none ctx db cid resp hres hw hfr]
      refine ⟨_, rfl, ?_, ?_, ?_, ?_⟩ <;>
        by_cases hn : ctx.req.next_step_required = true <;>
          simp [hn, applyWorkflowUpdate, newWorkflowRecord]

/-- Claim C4: for every step submission with `next_step_required = false`
whose adapter call succeeds — against a pre-existing workflow or one the
request creates under a fresh server id — the resulting workflow ends the
request with `status = completed` and `result` equal to the adapter's
response. -/
theorem C4_final_step_completes_workflow (ctx : RouteCtx) (db : DbState)
    (uid : String) (resp : ExaiResponse)
    (htool : VALID_TOOLS.contains ctx.tool = true)
    (hsess : ctx.session = some uid)
    (hzod : zodValid ctx.req = true)
    (hnext : ctx.req.next_step_required = false)
    (hres : ctx.adapterResult = .ok resp)
    (hwid : ctx.req.workflowId.all (fun wid => (getWorkflow db wid).isSome) = true)
    (hfresh : ctx.req.workflowId = none →
      db.workflows.all (fun w => w.id != ctx.newWorkflowId) = true) :
    ∃ w, getWorkflow (POST ctx db).snd (ctx.req.workflowId.getD ctx.newWorkflowId) = some w ∧
      w.status = "completed" ∧ w.result = some resp := by
  cases hconv : ctx.req.conversationId with
  | some cid =>
      rw [POST_success_someConv ctx db uid cid htool hsess hzod hconv]
      obtain ⟨w0, h1, _, _, hstat, hresE⟩ :=
        phase_final_workflow_value ctx db cid resp hres hwid hfresh
      refine ⟨w0, h1, ?_, hresE hnext⟩
      rw [hstat, hnext]
      simp
  | none =>
      rw [POST_success_noneConv ctx db uid htool hsess hzod hconv]
      obtain ⟨w0, h1, _, _, hstat, hresE⟩ :=
        phase_final_workflow_value ctx
          (dbCreateConversation db uid ctx.tool
            (some (ctx.tool ++ " - " ++ ctx.req.step.take 50))
            ctx.newConversationId ctx.now)
          ctx.newConversationId resp hres hwid hfresh
      refine ⟨w0, h1, ?_, hresE hnext⟩
      rw [hstat, hnext]
      simp

/-- Witness for C4 at a concrete final-step submission. -/
theorem C4_witness :
    ∃ w, getWorkflow (POST ctxC4 dbC4).snd
        (ctxC4.req.workflowId.getD ctxC4.newWorkflowId) = some w ∧
      w.status = "completed" ∧ w.result = some respC4 :=
  C4_final_step_completes_workflow ctxC4 dbC4 "alice" respC4 (by decide) rfl (by decide)
    rfl rfl (by decide) (fun h => absurd h (by decide))

/-- Claim C5 (amended): for every successful step submission the updated
workflow's `continuationId` equals the continuation id supplied in the
request (empty or absent collapsing to null) — not the one the adapter's
response returned — alongside `currentStep = stepNumber` and the status
determined by `nextStepRequired`. -/
theorem C5_amended_continuation_from_request (ctx : RouteCtx) (db : DbState)
    (uid : String) (resp : ExaiResponse)
    (htool : VALID_TOOLS.contains ctx.tool = true)
    (hsess : ctx.session = some uid)
    (hzod : zodValid ctx.req = true)
    (hres : ctx.adapterResult = .ok resp)
    (hwid : ctx.req.workflowId.all (fun wid => (getWorkflow db wid).isSome) = true)
    (hfresh : ctx.req.workflowId = none →
      db.workflows.all (fun w => w.id != ctx.newWorkflowId) = true) :
    ∃ w, getWorkflow (POST ctx db).snd (ctx.req.workflowId.getD ctx.newWorkflowId) = some w ∧
      w.continuationId = jsOrNull ctx.req.continuation_id ∧
      w.currentStep = ctx.req.step_number ∧
      w.status = (if ctx.req.next_step_required then "running" else "completed") := by
  cases hconv : ctx.req.conversationId with
  | some cid =>
      rw [POST_success_someConv ctx db uid cid htool hsess hzod hconv]
      obtain ⟨w0, h1, hc, hs, hstat, _⟩ :=
        phase_final_workflow_value ctx db cid resp hres hwid hfresh
      exact ⟨w0, h1, hc, hs, hstat⟩
  | none =>
      rw [POST_success_noneConv ctx db uid htool hsess hzod hconv]
      obtain ⟨w0, h1, hc, hs, hstat, _⟩ :=
        phase_final_workflow_value ctx
          (dbCreateConversation db uid ctx.tool
            (some (ctx.tool ++ " - " ++ ctx.req.step.take 50))
            ctx.newConversationId ctx.now)
          ctx.newConversationId resp hres hwid hfresh
      exact ⟨w0, h1, hc, hs, hstat⟩

/-- Witness for the amended C5 theorem at a concrete submission. -/
theorem C5_amended_witness :
    ∃ w, getWorkflow (POST ctxC5 dbC5).snd
        (ctxC5.req.workflowId.getD ctxC5.newWorkflowId) = some w ∧
      w.continuationId = jsOrNull ctxC5.req.continuation_id ∧
      w.currentStep = ctxC5.req.step_number ∧
      w.status = (if ctxC5.req.next_step_required then "running" else "completed") :=
  C5_amended_continuation_from_request ctxC5 dbC5 "alice" respC5 (by decide) rfl (by decide)
    rfl (by decide) (fun h => absurd h (by decide))

/-- Recording the post-call step only ever appends to the step log. -/
theorem recordCompletedStep_steps_or (ctx : RouteCtx) (db : DbState) (wid : String)
    (resp : ExaiResponse) :
    ∃ tail, (recordCompletedStep ctx db wid resp).steps = db.steps ++ tail := by
  unfold recordCompletedStep
  cases hf : (dbGetWorkflowSteps db wid).find?
      (fun s => s.stepNumber = ctx.req.step_number) with
  | none => exact ⟨[], (List.append_nil _).symm⟩
  | some cur =>
      exact ⟨[mkWorkflowStep (completedStepInput ctx.req wid cur.metadata resp) ctx.now], rfl⟩

/-- Finalization plus conversation touch never changes the step log. -/
theorem afterFinalize_snd_steps (ctx : RouteCtx) (db2 : DbState) (cid wid : String)
    (resp : ExaiResponse) :
    (afterFinalize ctx db2 cid wid resp).snd.steps = db2.steps := by
  unfold afterFinalize
  cases hfin : finalizeWorkflow ctx db2 wid resp with
  | error e => rfl
  | ok db3 =>
      exact (touchConversation_snd_steps db3 cid wid resp ctx.now).trans
        (finalizeWorkflow_ok_steps hfin)

/-- The post-adapter tail only ever appends to the step log. -/
theorem postAfterWorkflow_steps_append (ctx : RouteCtx) (db : DbState) (cid wid : String) :
    ∃ tail, (postAfterWorkflow ctx db cid wid).snd.steps = db.steps ++ tail := by
  unfold postAfterWorkflow
  cases hres : ctx.adapterResult with
  | error e => exact ⟨[mkWorkflowStep (runningStepInput wid ctx.req) ctx.now], rfl⟩
  | ok resp =>
      obtain ⟨t2, ht2⟩ := recordCompletedStep_steps_or ctx
        (dbCreateWorkflowStep db (runningStepInput wid ctx.req) ctx.now) wid resp
      refine ⟨[mkWorkflowStep (runningStepInput wid ctx.req) ctx.now] ++ t2, ?_⟩
      show (afterFinalize ctx
          (recordCompletedStep ctx
            (dbCreateWorkflowStep db (runningStepInput wid ctx.req) ctx.now) wid resp)
          cid wid resp).snd.steps = _
      rw [afterFinalize_snd_steps, ht2]
      show (db.steps ++ [mkWorkflowStep (runningStepInput wid ctx.req) ctx.now]) ++ t2 = _
      rw [List.append_assoc]

/-- The workflow phase only ever appends to the step log. -/
theorem postWorkflowPhase_steps_append (ctx : RouteCtx) (db : DbState) (cid : String) :
    ∃ tail, (postWorkflowPhase ctx db cid).snd.steps = db.steps ++ tail := by
  unfold postWorkflowPhase
  split
  next h => exact postAfterWorkflow_steps_append ctx _ cid ctx.newWorkflowId
  next wid h =>
      split
      next e h2 => exact ⟨[], (List.append_nil _).symm⟩
      next db2 h2 =>
          obtain ⟨t, ht⟩ := postAfterWorkflow_steps_append ctx db2 cid wid
          have hst : db2.steps = db.steps := by rw [dbUpdateWorkflow_ok_elim h2]
          exact ⟨t, by rw [ht, hst]⟩

/-- `POST` only ever appends to the step log, on every control path. -/
theorem POST_steps_append (ctx : RouteCtx) (db : DbState) :
    ∃ tail, (POST ctx db).snd.steps = db.steps ++ tail := by
  unfold POST
  split
  · split
    next h => exact ⟨[], (List.append_nil _).symm⟩
    next uid h =>
        split
        · split
          next cid h2 => exact postWorkflowPhase_steps_append ctx db cid
          next h2 => exact postWorkflowPhase_steps_append ctx _ ctx.newConversationId
        · exact ⟨[], (List.append_nil _).symm⟩
  · exact ⟨[], (List.append_nil _).symm⟩

/-- On a successful adapter call the post-adapter tail appends exactly the
pre-call `running` record and a `completed` record carrying the response. -/
theorem postAfterWorkflow_steps_success (ctx : RouteCtx) (db : DbState) (cid wid : String)
    (resp : ExaiResponse) (hres : ctx.adapterResult = .ok resp) :
    ∃ post, (postAfterWorkflow ctx db cid wid).snd.steps =
        db.steps ++ [mkWorkflowStep (runningStepInput wid ctx.req) ctx.now, post] ∧
      post.status = "completed" ∧ post.stepNumber = ctx.req.step_number ∧
      post.metadata.response = some resp := by
  have hmem : mkWorkflowStep (runningStepInput wid ctx.req) ctx.now ∈
      dbGetWorkflowSteps (dbCreateWorkflowStep db (runningStepInput wid ctx.req) ctx.now) wid := by
    unfold dbGetWorkflowSteps
    rw [mem_sortByStepNumber, List.mem_filter]
    refine ⟨?_, ?_⟩
    · show _ ∈ db.steps ++ [_]
      simp
    · simp [mkWorkflowStep, runningStepInput]
  have hfound : ((dbGetWorkflowSteps
      (dbCreateWorkflowStep db (runningStepInput wid ctx.req) ctx.now) wid).find?
        (fun s => s.stepNumber = ctx.req.step_number)).isSome = true := by
    rw [List.find?_isSome]
    exact ⟨_, hmem, by simp [mkWorkflowStep, runningStepInput]⟩
  obtain ⟨cur, hcur⟩ := Option.isSome_iff_exists.mp hfound
  unfold postAfterWorkflow
  rw [hres]
  refine ⟨mkWorkflowStep (completedStepInput ctx.req wid cur.metadata resp) ctx.now,
    ?_, rfl, rfl, rfl⟩
  show (afterFinalize ctx
      (recordCompletedStep ctx
        (dbCreateWorkflowStep db (runningStepInput wid ctx.req) ctx.now) wid resp)
      cid wid resp).snd.steps = _
  rw [afterFinalize_snd_steps, recordCompletedStep_of_found hcur]
  show (db.steps ++ [mkWorkflowStep (runningStepInput wid ctx.req) ctx.now]) ++
      [mkWorkflowStep (completedStepInput ctx.req wid cur.metadata resp) ctx.now] = _
  rw [List.append_assoc]
  rfl

/-- On a successful adapter call against a present (or fresh) workflow, the
workflow phase appends exactly the two step records. -/
theorem postWorkflowPhase_steps_success (ctx : RouteCtx) (db : DbState) (cid : String)
    (resp : ExaiResponse)
    (hres : ctx.adapterResult = .ok resp)
    (hwid : ctx.req.workflowId.all (fun wid => (getWorkflow db wid).isSome) = true) :
    ∃ post, (postWorkflowPhase ctx db cid).snd.steps =
        db.steps ++ [mkWorkflowStep
          (runningStepInput (ctx.req.workflowId.getD ctx.newWorkflowId) ctx.req) ctx.now,
          post] ∧
      post.status = "completed" ∧ post.stepNumber = ctx.req.step_number ∧
      post.metadata.response = some resp := by
  unfold postWorkflowPhase
  split
  next h =>
      rw [h]
      simp only [Option.getD_none]
      exact postAfterWorkflow_steps_success ctx _ cid ctx.newWorkflowId resp hres
  next wid h =>
      rw [h]
      simp only [Option.getD_some]
      have hfound : (getWorkflow db wid).isSome = true := by
        rw [h] at hwid; simpa using hwid
      split
      next e h2 =>
          rw [dbUpdateWorkflow_of_found db wid _ ctx.now hfound] at h2
          simp at h2
      next db2 h2 =>
          have hst : db2.steps = db.steps := by rw [dbUpdateWorkflow_ok_elim h2]
          obtain ⟨post, hp, h3, h4, h5⟩ :=
            postAfterWorkflow_steps_success ctx db2 cid wid resp hres
          exact ⟨post, by rw [hp, hst], h3, h4, h5⟩

/-- Claim C6: no operation of the route ever mutates or deletes an existing
WorkflowStep record — on every control path the final step log extends the
initial one — and on a successful submission the post-call outcome is a
newly inserted `completed` record while the pre-call `running` record is
preserved right before it. -/
theorem C6_step_log_append_only (ctx : RouteCtx) (db : DbState) :
    (∃ tail, (POST ctx db).snd.steps = db.steps ++ tail) ∧
    (∀ uid resp, VALID_TOOLS.contains ctx.tool = true → ctx.session = some uid →
      zodValid ctx.req = true → ctx.adapterResult = Except.ok resp →
      ctx.req.workflowId.all (fun wid => (getWorkflow db wid).isSome) = true →
      ∃ pre post, (POST ctx db).snd.steps = db.steps ++ [pre, post] ∧
        pre.status = "running" ∧ pre.stepNumber = ctx.req.step_number ∧
        post.status = "completed" ∧ post.stepNumber = ctx.req.step_number ∧
        post.metadata.response = some resp) := by
  refine ⟨POST_steps_append ctx db, ?_⟩
  intro uid resp htool hsess hzod hres hwid
  cases hconv : ctx.req.conversationId with
  | some cid =>
      rw [POST_success_someConv ctx db uid cid htool hsess hzod hconv]
      obtain ⟨post, hp, h3, h4, h5⟩ :=
        postWorkflowPhase_steps_success ctx db cid resp hres hwid
      exact ⟨_, post, hp, rfl, rfl, h3, h4, h5⟩
  | none =>
      rw [POST_success_noneConv ctx db uid htool hsess hzod hconv]
      obtain ⟨post, hp, h3, h4, h5⟩ :=
        postWorkflowPhase_steps_success ctx
          (dbCreateConversation db uid ctx.tool
            (some (ctx.tool ++ " - " ++ ctx.req.step.take 50))
            ctx.newConversationId ctx.now)
          ctx.newConversationId resp hres hwid
      exact ⟨_, post, hp, rfl, rfl, h3, h4, h5⟩

/-- Witness for C6 at a concrete mid-workflow submission. -/
theorem C6_witness :
    (∃ tail, (POST ctxC6 dbC6).snd.steps = dbC6.steps ++ tail) ∧
    (∃ pre post, (POST ctxC6 dbC6).snd.steps = dbC6.steps ++ [pre, post] ∧
      pre.status = "running" ∧ pre.stepNumber = ctxC6.req.step_number ∧
      post.status = "completed" ∧ post.stepNumber = ctxC6.req.step_number ∧
      post.metadata.response = some respC6) :=
  ⟨(C6_step_log_append_only ctxC6 dbC6).1,
   (C6_step_log_append_only ctxC6 dbC6).2 "alice" respC6 (by decide) rfl (by decide)
     rfl (by decide)⟩
